import Mathlib

/-!
Shallow embedding of `src/prices.py`, a CLI utility that validates a ticker
and a period argument, fetches OHLCV price history from an external market
data source, and renders a textual report.  Python strings are modelled as
Lean `String`s manipulated through their underlying `List Char`; ASCII case
mapping and ASCII whitespace model Python's `str.lower`, `str.upper` and
`str.strip` (all inputs handled by the program are ASCII).  Python's
`ValueError` carrying a message is modelled as `Except String`; decimal
prices and volumes are modelled as `ℚ` (the claims under study do not
concern binary floating-point rounding).  The two network calls are modelled
as oracle parameters: `infoRes` for `stock.info` and `histRes` for
`stock.history(...)`.
-/

set_option maxRecDepth 8000

deriving instance DecidableEq for Except

namespace Prices

/-- Python `str.isspace`-relevant characters for `strip` (ASCII whitespace). -/
def pyIsSpace (c : Char) : Bool :=
  decide (c.toNat = 32 ∨ c.toNat = 9 ∨ c.toNat = 10 ∨ c.toNat = 13 ∨
          c.toNat = 11 ∨ c.toNat = 12)

/-- ASCII decimal digit test. -/
def isDigit (c : Char) : Bool := decide (48 ≤ c.toNat ∧ c.toNat ≤ 57)

/-- Numeric value of an ASCII digit character. -/
def digitVal (c : Char) : Nat := c.toNat - 48

/-- ASCII case mapping used by Python `str.lower`. -/
def pyLowerChar (c : Char) : Char :=
  if 65 ≤ c.toNat ∧ c.toNat ≤ 90 then Char.ofNat (c.toNat + 32) else c

/-- ASCII case mapping used by Python `str.upper`. -/
def pyUpperChar (c : Char) : Char :=
  if 97 ≤ c.toNat ∧ c.toNat ≤ 122 then Char.ofNat (c.toNat - 32) else c

/-- Python `str.lower` (ASCII model). -/
def pyLower (s : String) : String := ⟨s.data.map pyLowerChar⟩

/-- Python `str.upper` (ASCII model). -/
def pyUpper (s : String) : String := ⟨s.data.map pyUpperChar⟩

/-- Python `str.strip` on the character list: drop whitespace from both ends. -/
def stripList (l : List Char) : List Char :=
  ((l.dropWhile pyIsSpace).reverse.dropWhile pyIsSpace).reverse

/-- Python `str.strip` (ASCII whitespace model). -/
def pyStrip (s : String) : String := ⟨stripList s.data⟩

/-- Character for a decimal digit value. -/
def digitChar (d : Nat) : Char := Char.ofNat (48 + d)

/-- Fuel-indexed most-significant-first decimal digits of a natural number. -/
def natReprAux : Nat → Nat → List Char
  | 0, _ => []
  | fuel + 1, n =>
    if n < 10 then [digitChar n]
    else natReprAux fuel (n / 10) ++ [digitChar (n % 10)]

/-- Decimal digit list of a natural number. -/
def natRepr (n : Nat) : List Char := natReprAux (n + 1) n

/-- Decimal string of a natural number, as produced by Python `str`/f-strings. -/
def natStr (n : Nat) : String := ⟨natRepr n⟩

/-- Decimal string of an integer, as produced by a Python f-string. -/
def fmtInt (i : Int) : String :=
  if i < 0 then ("-") ++ natStr i.natAbs else natStr i.natAbs

/-- Accumulator loop for Python `int()` digit parsing: digits with single
underscores allowed between digits. -/
def pdAux (acc : Nat) (l : List Char) : Option Nat :=
  match l with
  | [] => some acc
  | c :: rest =>
    if isDigit c then pdAux (acc * 10 + digitVal c) rest
    else if c = '_' then
      match rest with
      | [] => none
      | c2 :: rest2 =>
        if isDigit c2 then pdAux (acc * 10 + digitVal c2) rest2 else none
    else none

/-- Python `int()` digit-run parser: a nonempty digit sequence, optionally
with single underscores between digits. -/
def parseDigitsU : List Char → Option Nat
  | [] => none
  | c :: rest => if isDigit c then pdAux (digitVal c) rest else none

/-- Python `int(s)` for base 10: surrounding whitespace is stripped, an
optional sign is consumed, and the remaining digit run is parsed; `none`
models the `ValueError` raised on any malformed input. -/
def pyInt (s : String) : Option Int :=
  match stripList s.data with
  | [] => none
  | c :: rest =>
    if c = '+' then (parseDigitsU rest).map Int.ofNat
    else if c = '-' then (parseDigitsU rest).map (fun k => -(Int.ofNat k))
    else (parseDigitsU (c :: rest)).map Int.ofNat

/-- Python's `needle in haystack` substring test. -/
def strContains (needle hay : String) : Bool := decide (needle.data <:+: hay.data)

/-- The fixed enumeration of predefined period tags (line 37 of the source). -/
def predefined_periods : List String :=
  [("1d"), ("5d"), ("1mo"), ("3mo"), ("6mo"), ("1y"), ("2y"), ("5y"), ("10y"), ("max")]

/-- Message of the `ValueError` raised for an empty ticker (line 33). -/
def msg_empty_ticker : String := "El ticker no puede estar vacío"

/-- Message of the `ValueError` raised for a day count below 1 (line 45). -/
def msg_days_too_small : String := "El número de días debe ser mayor a 0"

/-- Message of the `ValueError` raised for a day count above 3650 (line 47). -/
def msg_days_too_large : String :=
  "El número máximo de días es 3650 (~10 años). Usa \x27max\x27 para obtener todos los datos disponibles"

/-- Message of the `ValueError` raised by Python `int()` on a parse failure. -/
def int_parse_error_msg (s : String) : String :=
  ("invalid literal for int() with base 10: \x27") ++ s ++ ("\x27")

/-- Message of the `ValueError` raised for an unrecognized period (line 51);
it enumerates the predefined tags. -/
def msg_invalid_period (s : String) : String :=
  ("Período inválido \x27") ++ s ++
  ("\x27. Usa un número de días (1-3650) o un período predefinido: ") ++
  String.intercalate (", ") predefined_periods

/-- Embedding of `validate_ticker` (lines 31-34): reject empty or
whitespace-only input, otherwise return `ticker.upper().strip()`. -/
def validate_ticker (ticker : String) : Except String String :=
  if ticker = ("") ∨ pyStrip ticker = ("") then .error msg_empty_ticker
  else .ok (pyStrip (pyUpper ticker))

/-- Embedding of `validate_period` (lines 36-52): predefined-tag lookup on
the lowercased input, otherwise `int()` parse with range checks inside a
`try`, whose `except ValueError` handler replaces messages containing
`invalid literal` by the enumerating message and re-raises the others. -/
def validate_period (period_str : String) : Except String String :=
  if pyLower period_str ∈ predefined_periods then .ok (pyLower period_str)
  else
    let attempt : Except String String :=
      match pyInt period_str with
      | none => .error (int_parse_error_msg period_str)
      | some days =>
        if days < 1 then .error msg_days_too_small
        else if days > 3650 then .error msg_days_too_large
        else .ok (fmtInt days ++ ("d"))
    match attempt with
    | .ok v => .ok v
    | .error e =>
      if strContains ("invalid literal") e then .error (msg_invalid_period period_str)
      else .error e

/-- One row of the OHLCV table returned by the data source; the date is kept
as its rendered string (`strftime` output is not re-modelled). -/
structure PriceRecord where
  Date : String
  Open : ℚ
  High : ℚ
  Low : ℚ
  Close : ℚ
  Volume : ℚ
deriving DecidableEq, Inhabited

/-- The summary quantities computed in `main` (lines 89-95), with the
source's local variable names. -/
structure SummaryStats where
  first_price : ℚ
  last_price : ℚ
  change : ℚ
  change_percent : ℚ
  max_price : ℚ
  min_price : ℚ
  avg_volume : ℚ
deriving DecidableEq

/-- pandas `Series.max` over a column (only applied to nonempty series). -/
def listMax : List ℚ → ℚ
  | [] => 0
  | x :: xs => xs.foldl max x

/-- pandas `Series.min` over a column (only applied to nonempty series). -/
def listMin : List ℚ → ℚ
  | [] => 0
  | x :: xs => xs.foldl min x

/-- pandas `Series.mean` over a column: sum divided by length. -/
def listMean (l : List ℚ) : ℚ := l.sum / (l.length : ℚ)

/-- The summary computation of `main` (lines 89-95): first/last close,
absolute and percent change, max high, min low, mean volume. -/
def computeSummary (history : List PriceRecord) : SummaryStats :=
  let last_price := (history.map (fun r => r.Close)).getLastD 0
  let first_price := (history.map (fun r => r.Close)).headD 0
  let change := last_price - first_price
  { first_price := first_price
    last_price := last_price
    change := change
    change_percent := change / first_price * 100
    max_price := listMax (history.map (fun r => r.High))
    min_price := listMin (history.map (fun r => r.Low))
    avg_volume := listMean (history.map (fun r => r.Volume)) }

/-- Result of `stock.info`: the optional `longName` and `shortName` entries. -/
structure TickerInfo where
  longName : Option String
  shortName : Option String
deriving DecidableEq

/-- The fallback chain `info.get(longName, info.get(shortName, ticker))`
of line 68. -/
def company_name (info : TickerInfo) (ticker : String) : String :=
  info.longName.getD (info.shortName.getD ticker)

/-- One observable output item of a run: a printed text line, the printed
summary block (whose fixed-point decimal formatting is recorded by the exact
rational values it displays), or the printed table (whose rows are recorded;
the per-cell `round(2)`/`astype(int)` display transform is presentational). -/
inductive Out where
  | line (s : String)
  | summary (stats : SummaryStats)
  | table (rows : List PriceRecord)
deriving DecidableEq

/-- Embedding of `main` (lines 54-128) after argument parsing: the two
network effects are oracle parameters (`infoRes` for `stock.info`, `histRes`
for `stock.history`), `now` is the formatted timestamp, and the result is
the list of outputs together with the process exit status (0 for a normal
return, 1 for `sys.exit(1)`). -/
def main (infoRes : Except Unit TickerInfo) (histRes : Except String (List PriceRecord))
    (ticker_arg period_arg now : String) : List Out × Nat :=
  match validate_ticker ticker_arg with
  | .error e => ([.line (("❌ Error de validación: ") ++ e)], 1)
  | .ok ticker_symbol =>
    match validate_period period_arg with
    | .error e => ([.line (("❌ Error de validación: ") ++ e)], 1)
    | .ok period =>
      let header : List Out :=
        [.line (("=== Precios históricos de ") ++ ticker_symbol ++ (" - ") ++ now ++ (" ===")),
         .line (("Período consultado: ") ++ period)]
      let infoOut : List Out :=
        match infoRes with
        | .ok info =>
          [.line (("📈 ") ++ company_name info ticker_symbol ++ (" (") ++ ticker_symbol ++ (")"))]
        | .error _ =>
          [.line (("⚠️  Advertencia: No se pudo obtener información de la empresa para ") ++ ticker_symbol)]
      let fetchOut : List Out := [.line ("Obteniendo datos históricos...")]
      match histRes with
      | .error e =>
        (header ++ infoOut ++ fetchOut ++
          [.line (("❌ Error al obtener datos: ") ++ e),
           .line ("Posibles soluciones:"),
           .line ("- Verifica tu conexión a internet"),
           .line ("- Confirma que el ticker sea correcto"),
           .line ("- Intenta con un período menor"),
           .line ("- Espera unos minutos antes de intentar nuevamente")], 1)
      | .ok history =>
        if history = [] then
          (header ++ infoOut ++ fetchOut ++
            [.line (("❌ No se encontraron datos para ") ++ ticker_symbol ++ (" en el período ") ++ period),
             .line ("Posibles causas:"),
             .line ("- Ticker incorrecto o no existe"),
             .line ("- Período muy amplio para este ticker"),
             .line ("- Problemas de conexión")], 0)
        else
          let dataOut : List Out :=
            [.line (("📊 Datos obtenidos: ") ++ natStr history.length ++ (" registros")),
             .line (("Período: ") ++ (history.headD default).Date ++ (" a ") ++ (history.getLastD default).Date),
             .line ("💰 Resumen del período:"),
             .summary (computeSummary history),
             .line (("📈 Historial de precios (") ++ period ++ ("):"))]
          let tableOut : List Out :=
            if history.length > 20 then
              [.line ("(Mostrando las últimas 20 sesiones)"),
               .table (history.drop (history.length - 20))]
            else [.table history]
          (header ++ infoOut ++ fetchOut ++ dataOut ++ tableOut, 0)

/-- Synthetic five-record series whose closes are 100, 102, 98, 105, 110. -/
def exHistory : List PriceRecord :=
  [⟨("2024-01-01"), 100, 101, 99, 100, 1000⟩,
   ⟨("2024-01-02"), 100, 103, 100, 102, 1200⟩,
   ⟨("2024-01-03"), 102, 102, 97, 98, 900⟩,
   ⟨("2024-01-04"), 98, 106, 98, 105, 1500⟩,
   ⟨("2024-01-05"), 105, 111, 104, 110, 1400⟩]

/-- Synthetic 25-record series used to exercise the truncation branch. -/
def exHistory25 : List PriceRecord :=
  List.replicate 25 (⟨("2024-02-01"), 10, 12, 9, 11, 500⟩)

/-! Helper lemmas about the character and string primitives. -/

theorem toNat_ofNat_valid (n : Nat) (h : n < 55296) : (Char.ofNat n).toNat = n := by
  have hv : n.isValidChar := Or.inl h
  simp [Char.ofNat, dif_pos hv, Char.ofNatAux, Char.toNat, UInt32.toNat, UInt32.ofNat',
    BitVec.toNat_ofNatLt]

theorem toNat_pyUpperChar (c : Char) (h : 97 ≤ c.toNat ∧ c.toNat ≤ 122) :
    (pyUpperChar c).toNat = c.toNat - 32 := by
  rw [pyUpperChar, if_pos h]
  exact toNat_ofNat_valid _ (by omega)

theorem pyIsSpace_iff (c : Char) :
    pyIsSpace c = true ↔ (c.toNat = 32 ∨ c.toNat = 9 ∨ c.toNat = 10 ∨ c.toNat = 13 ∨
      c.toNat = 11 ∨ c.toNat = 12) := by
  simp [pyIsSpace]

theorem isDigit_iff (c : Char) : isDigit c = true ↔ (48 ≤ c.toNat ∧ c.toNat ≤ 57) := by
  simp [isDigit]

theorem pyIsSpace_pyUpperChar (c : Char) : pyIsSpace (pyUpperChar c) = pyIsSpace c := by
  by_cases h : 97 ≤ c.toNat ∧ c.toNat ≤ 122
  · have ht := toNat_pyUpperChar c h
    rcases hsp : pyIsSpace c with _ | _
    · rcases hsp2 : pyIsSpace (pyUpperChar c) with _ | _
      · rfl
      · rw [pyIsSpace_iff, ht] at hsp2
        omega
    · rw [pyIsSpace_iff] at hsp
      omega
  · rw [pyUpperChar, if_neg h]

theorem pyLowerChar_of_space (c : Char) (h : pyIsSpace c = true) : pyLowerChar c = c := by
  rw [pyIsSpace_iff] at h
  rw [pyLowerChar, if_neg (by omega)]

theorem pyLowerChar_of_digit (c : Char) (h : isDigit c = true) : pyLowerChar c = c := by
  rw [isDigit_iff] at h
  rw [pyLowerChar, if_neg (by omega)]

theorem isDigit_not_space (c : Char) (h : isDigit c = true) : pyIsSpace c = false := by
  rw [isDigit_iff] at h
  rcases hsp : pyIsSpace c with _ | _
  · rfl
  · rw [pyIsSpace_iff] at hsp
    omega

theorem isDigit_ne_plus (c : Char) (h : isDigit c = true) : c ≠ '+' := by
  intro e
  subst e
  exact absurd h (by decide)

theorem isDigit_ne_minus (c : Char) (h : isDigit c = true) : c ≠ '-' := by
  intro e
  subst e
  exact absurd h (by decide)

theorem dropWhile_map (p : Char → Bool) (f : Char → Char) (l : List Char) :
    (l.map f).dropWhile p = (l.dropWhile (fun c => p (f c))).map f := by
  induction l with
  | nil => rfl
  | cons c l ih =>
    simp only [List.map_cons, List.dropWhile_cons]
    by_cases h : p (f c) = true
    · simp [h, ih]
    · simp [h]

theorem stripList_map_upper (l : List Char) :
    stripList (l.map pyUpperChar) = (stripList l).map pyUpperChar := by
  have hp : (fun c => pyIsSpace (pyUpperChar c)) = pyIsSpace := by
    funext c
    exact pyIsSpace_pyUpperChar c
  rw [stripList, stripList, dropWhile_map, hp, ← List.map_reverse, dropWhile_map, hp,
    List.map_reverse]

theorem pyStrip_pyUpper_comm (s : String) : pyStrip (pyUpper s) = pyUpper (pyStrip s) := by
  show String.mk (stripList (s.data.map pyUpperChar)) = String.mk ((stripList s.data).map pyUpperChar)
  rw [stripList_map_upper]

/-! String disequality via the first or the last character. -/

theorem mk_data (s : String) : String.mk s.data = s := rfl

theorem ne_of_data_ne (a b : String) (h : a.data ≠ b.data) : a ≠ b := by
  intro e
  exact h (congrArg String.data e)

theorem data_head_append (a b : String) (c : Char) (h : a.data.head? = some c) :
    (a ++ b).data.head? = some c := by
  rcases hd : a.data with _ | ⟨d, t⟩
  · rw [hd] at h
    cases h
  · rw [hd] at h
    injection h with h
    simp [String.data_append, hd, h]

theorem ne_of_head (a b : String) (ca cb : Char) (ha : a.data.head? = some ca)
    (hb : b.data.head? = some cb) (hne : ca ≠ cb) : a ≠ b := by
  intro e
  rw [e, hb] at ha
  injection ha with ha
  exact hne ha.symm

theorem data_last_append (a b : String) (c : Char) (h : b.data.getLast? = some c) :
    (a ++ b).data.getLast? = some c := by
  simp [String.data_append, List.getLast?_append, h]

theorem ne_of_last (a b : String) (ca cb : Char) (ha : a.data.getLast? = some ca)
    (hb : b.data.getLast? = some cb) (hne : ca ≠ cb) : a ≠ b := by
  intro e
  rw [e, hb] at ha
  injection ha with ha
  exact hne ha.symm

/-! Lemmas about `strip`. -/

theorem dropWhile_append_of_all (p : Char → Bool) (l1 l2 : List Char)
    (h : ∀ c ∈ l1, p c = true) : (l1 ++ l2).dropWhile p = l2.dropWhile p := by
  induction l1 with
  | nil => rfl
  | cons c t ih =>
    have hc : p c = true := h c (by simp)
    simp only [List.cons_append, List.dropWhile_cons, hc, if_pos]
    exact ih (fun x hx => h x (by simp [hx]))

theorem dropWhile_of_head_false (p : Char → Bool) (c : Char) (l : List Char)
    (h : p c = false) : (c :: l).dropWhile p = c :: l := by
  simp [List.dropWhile_cons, h]

theorem stripList_surrounded (ws1 mid ws2 : List Char)
    (h1 : ∀ c ∈ ws1, pyIsSpace c = true) (h2 : ∀ c ∈ ws2, pyIsSpace c = true)
    (hmid : ∀ c ∈ mid, pyIsSpace c = false) (hne : mid ≠ []) :
    stripList (ws1 ++ mid ++ ws2) = mid := by
  rcases hm : mid with _ | ⟨c, t⟩
  · exact absurd hm hne
  · subst hm
    rw [stripList, List.append_assoc, dropWhile_append_of_all _ _ _ h1, List.cons_append,
      dropWhile_of_head_false _ _ _ (hmid c (by simp))]
    rw [← List.cons_append, List.reverse_append,
      dropWhile_append_of_all _ _ _ (fun x hx => h2 x (List.mem_reverse.mp hx))]
    rcases hr : (c :: t).reverse with _ | ⟨d, r⟩
    · exact absurd (List.reverse_eq_nil_iff.mp hr) (by simp)
    · have hd : pyIsSpace d = false := by
        have : d ∈ (c :: t).reverse := by
          rw [hr]
          simp
        exact hmid d (List.mem_reverse.mp this)
      rw [dropWhile_of_head_false _ _ _ hd, ← hr, List.reverse_reverse]

/-! Lemmas about the decimal representation and Python `int()` parsing. -/

theorem toNat_digitChar (d : Nat) (h : d < 10) : (digitChar d).toNat = 48 + d := by
  rw [digitChar]
  exact toNat_ofNat_valid _ (by omega)

theorem isDigit_digitChar (d : Nat) (h : d < 10) : isDigit (digitChar d) = true := by
  rw [isDigit_iff, toNat_digitChar d h]
  omega

theorem digitVal_digitChar (d : Nat) (h : d < 10) : digitVal (digitChar d) = d := by
  rw [digitVal, toNat_digitChar d h]
  omega

theorem natReprAux_ne_nil (fuel n : Nat) (h : n < fuel) : natReprAux fuel n ≠ [] := by
  rcases fuel with _ | fuel
  · omega
  · rw [natReprAux]
    by_cases h10 : n < 10
    · simp [h10]
    · simp [h10]

theorem natReprAux_digits (fuel : Nat) :
    ∀ n, n < fuel → ∀ c ∈ natReprAux fuel n, isDigit c = true := by
  induction fuel with
  | zero => omega
  | succ fuel ih =>
    intro n hn c hc
    rw [natReprAux] at hc
    by_cases h10 : n < 10
    · rw [if_pos h10] at hc
      simp only [List.mem_singleton] at hc
      subst hc
      exact isDigit_digitChar n h10
    · rw [if_neg h10] at hc
      rcases List.mem_append.mp hc with hc | hc
      · exact ih (n / 10) (by omega) c hc
      · simp only [List.mem_singleton] at hc
        subst hc
        exact isDigit_digitChar (n % 10) (Nat.mod_lt _ (by omega))

theorem natReprAux_foldl (fuel : Nat) :
    ∀ n, n < fuel → ∀ acc : Nat,
      (natReprAux fuel n).foldl (fun a c => a * 10 + digitVal c) acc =
        acc * 10 ^ (natReprAux fuel n).length + n := by
  induction fuel with
  | zero => omega
  | succ fuel ih =>
    intro n hn acc
    rw [natReprAux]
    by_cases h10 : n < 10
    · rw [if_pos h10]
      simp [List.foldl, digitVal_digitChar n h10]
    · rw [if_neg h10]
      rw [List.foldl_append, ih (n / 10) (by omega) acc]
      simp only [List.foldl, digitVal_digitChar (n % 10) (Nat.mod_lt _ (by omega)),
        List.length_append, List.length_singleton]
      rw [pow_succ]
      have := Nat.div_add_mod n 10
      ring_nf
      omega

theorem natRepr_ne_nil (n : Nat) : natRepr n ≠ [] :=
  natReprAux_ne_nil (n + 1) n (by omega)

theorem natRepr_digits (n : Nat) : ∀ c ∈ natRepr n, isDigit c = true :=
  natReprAux_digits (n + 1) n (by omega)

theorem natRepr_foldl (n : Nat) (acc : Nat) :
    (natRepr n).foldl (fun a c => a * 10 + digitVal c) acc =
      acc * 10 ^ (natRepr n).length + n :=
  natReprAux_foldl (n + 1) n (by omega) acc

theorem pdAux_digits (l : List Char) (hd : ∀ c ∈ l, isDigit c = true) (acc : Nat) :
    pdAux acc l = some (l.foldl (fun a c => a * 10 + digitVal c) acc) := by
  induction l generalizing acc with
  | nil => rfl
  | cons c rest ih =>
    have hc : isDigit c = true := hd c (by simp)
    rw [pdAux.eq_def]
    simp only [if_pos hc, List.foldl]
    exact ih (fun x hx => hd x (by simp [hx])) _

theorem parseDigitsU_natRepr (n : Nat) : parseDigitsU (natRepr n) = some n := by
  rcases hm : natRepr n with _ | ⟨c, rest⟩
  · exact absurd hm (natRepr_ne_nil n)
  · have hdigits : ∀ x ∈ natRepr n, isDigit x = true := natRepr_digits n
    rw [hm] at hdigits
    have hc : isDigit c = true := hdigits c (by simp)
    rw [parseDigitsU, if_pos hc,
      pdAux_digits rest (fun x hx => hdigits x (by simp [hx])) (digitVal c)]
    have : (c :: rest).foldl (fun a c => a * 10 + digitVal c) 0 = n := by
      rw [← hm, natRepr_foldl]
      simp
    simp only [List.foldl, Nat.zero_mul, Nat.zero_add] at this
    rw [this]

theorem natRepr_not_space (n : Nat) : ∀ c ∈ natRepr n, pyIsSpace c = false :=
  fun c hc => isDigit_not_space c (natRepr_digits n c hc)

theorem pyInt_of_strip_natRepr (s : String) (n : Nat) (h : stripList s.data = natRepr n) :
    pyInt s = some (n : Int) := by
  rcases hm : natRepr n with _ | ⟨c, rest⟩
  · exact absurd hm (natRepr_ne_nil n)
  · have hc : isDigit c = true := by
      apply natRepr_digits n
      rw [hm]
      simp
    rw [pyInt, h, hm]
    show (if c = '+' then (parseDigitsU rest).map Int.ofNat
      else if c = '-' then (parseDigitsU rest).map (fun k => -(Int.ofNat k))
      else (parseDigitsU (c :: rest)).map Int.ofNat) = some (Int.ofNat n)
    rw [if_neg (isDigit_ne_plus c hc), if_neg (isDigit_ne_minus c hc), ← hm,
      parseDigitsU_natRepr]
    rfl

/-! The lowercasing of a string of spaces and digits is never a predefined tag. -/

theorem pyLowerChar_ne_letter (c letter : Char)
    (hc : pyIsSpace c = true ∨ isDigit c = true)
    (hsp : pyIsSpace letter = false) (hdig : isDigit letter = false) :
    pyLowerChar c ≠ letter := by
  rcases hc with hc | hc
  · rw [pyLowerChar_of_space c hc]
    intro e
    subst e
    rw [hc] at hsp
    cases hsp
  · rw [pyLowerChar_of_digit c hc]
    intro e
    subst e
    rw [hc] at hdig
    cases hdig

theorem map_lower_ne_tag (l : List Char) (hsd : ∀ c ∈ l, pyIsSpace c = true ∨ isDigit c = true)
    (tag : List Char) (letter : Char) (hmem : letter ∈ tag)
    (hsp : pyIsSpace letter = false) (hdig : isDigit letter = false) :
    l.map pyLowerChar ≠ tag := by
  intro e
  have : letter ∈ l.map pyLowerChar := by
    rw [e]
    exact hmem
  rcases List.mem_map.mp this with ⟨c, hc, hlc⟩
  exact pyLowerChar_ne_letter c letter (hsd c hc) hsp hdig hlc

theorem pyLower_spaces_digits_not_predefined (l : List Char)
    (hsd : ∀ c ∈ l, pyIsSpace c = true ∨ isDigit c = true) :
    pyLower ⟨l⟩ ∉ predefined_periods := by
  intro hmem
  have hdata : ∀ tag : List Char, pyLower ⟨l⟩ = ⟨tag⟩ → l.map pyLowerChar = tag := by
    intro tag e
    exact congrArg String.data e
  simp only [predefined_periods, List.mem_cons, List.not_mem_nil, or_false] at hmem
  rcases hmem with e | e | e | e | e | e | e | e | e | e <;>
    [exact map_lower_ne_tag l hsd _ 'd' (by decide) (by decide) (by decide) (hdata _ e);
     exact map_lower_ne_tag l hsd _ 'd' (by decide) (by decide) (by decide) (hdata _ e);
     exact map_lower_ne_tag l hsd _ 'm' (by decide) (by decide) (by decide) (hdata _ e);
     exact map_lower_ne_tag l hsd _ 'm' (by decide) (by decide) (by decide) (hdata _ e);
     exact map_lower_ne_tag l hsd _ 'm' (by decide) (by decide) (by decide) (hdata _ e);
     exact map_lower_ne_tag l hsd _ 'y' (by decide) (by decide) (by decide) (hdata _ e);
     exact map_lower_ne_tag l hsd _ 'y' (by decide) (by decide) (by decide) (hdata _ e);
     exact map_lower_ne_tag l hsd _ 'y' (by decide) (by decide) (by decide) (hdata _ e);
     exact map_lower_ne_tag l hsd _ 'y' (by decide) (by decide) (by decide) (hdata _ e);
     exact map_lower_ne_tag l hsd _ 'm' (by decide) (by decide) (by decide) (hdata _ e)]

/-! Lemmas about column maxima, minima and means. -/

theorem le_foldl_max (a : ℚ) (l : List ℚ) : a ≤ l.foldl max a := by
  induction l generalizing a with
  | nil => exact le_refl a
  | cons b t ih => exact le_trans (le_max_left a b) (ih (max a b))

theorem foldl_max_mem (a : ℚ) (l : List ℚ) : l.foldl max a = a ∨ l.foldl max a ∈ l := by
  induction l generalizing a with
  | nil => exact Or.inl rfl
  | cons b t ih =>
    rcases ih (max a b) with h | h
    · rcases max_choice a b with hm | hm
      · exact Or.inl (by rw [List.foldl, h, hm])
      · refine Or.inr (by rw [List.foldl, h, hm]; simp)
    · exact Or.inr (by simp [List.foldl, h])

theorem mem_le_foldl_max (a x : ℚ) (l : List ℚ) (hx : x ∈ l) : x ≤ l.foldl max a := by
  induction l generalizing a with
  | nil => cases hx
  | cons b t ih =>
    rcases List.mem_cons.mp hx with h | h
    · subst h
      exact le_trans (le_max_right a x) (le_foldl_max _ t)
    · simp only [List.foldl_cons]
      exact ih (max a b) h

theorem listMax_mem (l : List ℚ) (h : l ≠ []) : listMax l ∈ l := by
  rcases l with _ | ⟨x, xs⟩
  · exact absurd rfl h
  · rw [listMax]
    rcases foldl_max_mem x xs with h | h
    · rw [h]
      simp
    · simp [h]

theorem le_listMax (l : List ℚ) (x : ℚ) (hx : x ∈ l) : x ≤ listMax l := by
  rcases l with _ | ⟨a, xs⟩
  · cases hx
  · rw [listMax]
    rcases List.mem_cons.mp hx with h | h
    · subst h
      exact le_foldl_max x xs
    · exact mem_le_foldl_max a x xs h

theorem foldl_min_le (a : ℚ) (l : List ℚ) : l.foldl min a ≤ a := by
  induction l generalizing a with
  | nil => exact le_refl a
  | cons b t ih => exact le_trans (ih (min a b)) (min_le_left a b)

theorem foldl_min_mem (a : ℚ) (l : List ℚ) : l.foldl min a = a ∨ l.foldl min a ∈ l := by
  induction l generalizing a with
  | nil => exact Or.inl rfl
  | cons b t ih =>
    rcases ih (min a b) with h | h
    · rcases min_choice a b with hm | hm
      · exact Or.inl (by rw [List.foldl, h, hm])
      · refine Or.inr (by rw [List.foldl, h, hm]; simp)
    · exact Or.inr (by simp [List.foldl, h])

theorem foldl_min_le_mem (a x : ℚ) (l : List ℚ) (hx : x ∈ l) : l.foldl min a ≤ x := by
  induction l generalizing a with
  | nil => cases hx
  | cons b t ih =>
    rcases List.mem_cons.mp hx with h | h
    · subst h
      exact le_trans (foldl_min_le _ t) (min_le_right a x)
    · simp only [List.foldl_cons]
      exact ih (min a b) h

theorem listMin_mem (l : List ℚ) (h : l ≠ []) : listMin l ∈ l := by
  rcases l with _ | ⟨x, xs⟩
  · exact absurd rfl h
  · rw [listMin]
    rcases foldl_min_mem x xs with h | h
    · rw [h]
      simp
    · simp [h]

theorem listMin_le (l : List ℚ) (x : ℚ) (hx : x ∈ l) : listMin l ≤ x := by
  rcases l with _ | ⟨a, xs⟩
  · cases hx
  · rw [listMin]
    rcases List.mem_cons.mp hx with h | h
    · subst h
      exact foldl_min_le x xs
    · exact foldl_min_le_mem a x xs h

/-! First and last elements through `map`. -/

theorem headD_map_close (l : List PriceRecord) (h : l ≠ []) :
    (l.map (fun r => r.Close)).headD 0 = (l.head h).Close := by
  rcases l with _ | ⟨r, t⟩
  · exact absurd rfl h
  · rfl

theorem getLastD_map_close (l : List PriceRecord) (h : l ≠ []) :
    (l.map (fun r => r.Close)).getLastD 0 = (l.getLast h).Close := by
  rw [List.getLastD_eq_getLast?, List.getLast?_map, List.getLast?_eq_getLast _ h]
  rfl

theorem contains_invalid_literal (s : String) :
    strContains ("invalid literal") (int_parse_error_msg s) = true := by
  have h1 : ("invalid literal").data <+: ("invalid literal for int() with base 10: \x27").data := by
    decide
  have h : ("invalid literal").data <+: (int_parse_error_msg s).data := by
    simp only [int_parse_error_msg, String.data_append]
    exact (h1.trans (List.prefix_append _ _)).trans (List.prefix_append _ _)
  rw [strContains]
  exact decide_eq_true h.isInfix

theorem not_contains_small :
    strContains ("invalid literal") msg_days_too_small = false := by decide

theorem not_contains_large :
    strContains ("invalid literal") msg_days_too_large = false := by decide

theorem msg_invalid_period_head (s : String) :
    (msg_invalid_period s).data.head? = some ('P') := by
  exact data_head_append _ _ _ (data_head_append _ _ _ (data_head_append _ _ _ rfl))

/-- C1: the claim says that each of `1d`, `5D`, `\x201mo` and `MAX` is accepted by
`validate_period` with the lowercase canonical tag as result.  It is false for
`\x201mo`: the predefined-tag comparison lowercases but does not strip, so the
leading space defeats the lookup and the `int()` parse then fails, raising
`InvalidInputError` with the enumerating message. -/
theorem C1_counterexample :
    validate_period (" 1mo") ≠ Except.ok ("1mo") ∧
    validate_period (" 1mo") = Except.error (msg_invalid_period (" 1mo")) := by decide

/-- C1 (amended): `1d`, `5D` and `MAX` (and untrimmed `1mo`) are matched
case-insensitively and produce the canonical lowercase tag, but `\x201mo`, whose
whitespace is not stripped before the tag comparison, is rejected with
`InvalidInputError`. -/
theorem C1_amended :
    validate_period ("1d") = Except.ok ("1d") ∧
    validate_period ("5D") = Except.ok ("5d") ∧
    validate_period ("MAX") = Except.ok ("max") ∧
    validate_period ("1mo") = Except.ok ("1mo") ∧
    validate_period (" 1mo") = Except.error (msg_invalid_period (" 1mo")) := by decide

/-- C2: for a string that is not a predefined tag, `validate_period` returns
`<N>d` when the string parses as an integer N in [1, 3650]; it fails with the
distinct too-small message when N < 1, with the distinct too-large message
when N > 3650, and with the tag-enumerating message when the parse fails; the
three failure messages are pairwise distinct. -/
theorem C2_validate_period_numeric (s : String) (hnp : pyLower s ∉ predefined_periods) :
    (∀ n : Int, pyInt s = some n →
      ((1 ≤ n ∧ n ≤ 3650) → validate_period s = Except.ok (fmtInt n ++ ("d"))) ∧
      (n < 1 → validate_period s = Except.error msg_days_too_small) ∧
      (3650 < n → validate_period s = Except.error msg_days_too_large)) ∧
    (pyInt s = none → validate_period s = Except.error (msg_invalid_period s)) ∧
    msg_days_too_small ≠ msg_days_too_large ∧
    msg_invalid_period s ≠ msg_days_too_small ∧
    msg_invalid_period s ≠ msg_days_too_large := by
  refine ⟨?_, ?_, by decide, ?_, ?_⟩
  · intro n hn
    refine ⟨?_, ?_, ?_⟩
    · intro hrange
      rw [validate_period, if_neg hnp]
      simp only [hn]
      rw [if_neg (by omega : ¬ n < 1), if_neg (by omega : ¬ n > 3650)]
    · intro hlt
      rw [validate_period, if_neg hnp]
      simp only [hn]
      rw [if_pos hlt]
      simp [not_contains_small]
    · intro hgt
      rw [validate_period, if_neg hnp]
      simp only [hn]
      rw [if_neg (by omega : ¬ n < 1), if_pos hgt]
      simp [not_contains_large]
  · intro hn
    rw [validate_period, if_neg hnp]
    simp only [hn]
    simp [contains_invalid_literal]
  · exact ne_of_head _ _ ('P') ('E') (msg_invalid_period_head s) rfl (by decide)
  · exact ne_of_head _ _ ('P') ('E') (msg_invalid_period_head s) rfl (by decide)

/-- C2 witness: concrete instances of each branch, obtained from the theorem. -/
theorem C2_witness :
    validate_period ("abc") = Except.error (msg_invalid_period ("abc")) ∧
    validate_period ("30") = Except.ok ("30d") ∧
    validate_period ("0") = Except.error msg_days_too_small ∧
    validate_period ("3651") = Except.error msg_days_too_large := by
  refine ⟨?_, ?_, ?_, ?_⟩
  · exact (C2_validate_period_numeric ("abc") (by decide)).2.1 (by decide)
  · exact ((((C2_validate_period_numeric ("30") (by decide)).1 30 (by decide)).1)
      (by decide)).trans (by decide)
  · exact (((C2_validate_period_numeric ("0") (by decide)).1 0 (by decide)).2.1) (by decide)
  · exact (((C2_validate_period_numeric ("3651") (by decide)).1 3651 (by decide)).2.2) (by decide)

/-- C8: `validate_ticker` returns the uppercased trimmed form of any input
whose trimmed form is nonempty, and raises `InvalidInputError` on empty and
whitespace-only input. -/
theorem C8_validate_ticker (ticker : String) :
    (pyStrip ticker ≠ ("") → validate_ticker ticker = Except.ok (pyUpper (pyStrip ticker))) ∧
    (pyStrip ticker = ("") → validate_ticker ticker = Except.error msg_empty_ticker) := by
  constructor
  · intro h
    have hne : ¬(ticker = ("") ∨ pyStrip ticker = ("")) := by
      rintro (rfl | he)
      · exact h rfl
      · exact h he
    rw [validate_ticker, if_neg hne, pyStrip_pyUpper_comm]
  · intro h
    rw [validate_ticker, if_pos (Or.inr h)]

/-- C8 witness: a mixed-case padded ticker and a whitespace-only ticker. -/
theorem C8_witness :
    validate_ticker (" aapl ") = Except.ok ("AAPL") ∧
    validate_ticker ("   ") = Except.error msg_empty_ticker := by
  constructor
  · exact ((C8_validate_ticker (" aapl ")).1 (by decide)).trans (by decide)
  · exact (C8_validate_ticker ("   ")).2 (by decide)

/-- C9: both validators are total functions of the input string: on every
input each one either returns a value or fails with the single
`InvalidInputError` kind (the `ValueError` message carried by the `error`
constructor); no other outcome exists. -/
theorem C9_validators_total (s : String) :
    ((∃ v, validate_ticker s = Except.ok v) ∨ (∃ e, validate_ticker s = Except.error e)) ∧
    ((∃ v, validate_period s = Except.ok v) ∨ (∃ e, validate_period s = Except.error e)) := by
  constructor
  · cases h : validate_ticker s with
    | error e => exact Or.inr ⟨e, rfl⟩
    | ok v => exact Or.inl ⟨v, rfl⟩
  · cases h : validate_period s with
    | error e => exact Or.inr ⟨e, rfl⟩
    | ok v => exact Or.inl ⟨v, rfl⟩

/-- C10: a decimal number N in [1, 3650] surrounded by whitespace is accepted
by `validate_period` with result `<N>d`: the whitespace keeps the string out
of the predefined-tag set (which does not trim), but Python `int()` strips it
before parsing. -/
theorem C10_whitespace_number (ws1 ws2 : List Char) (n : Nat)
    (h1 : ∀ c ∈ ws1, pyIsSpace c = true) (h2 : ∀ c ∈ ws2, pyIsSpace c = true)
    (hn1 : 1 ≤ n) (hn2 : n ≤ 3650) :
    validate_period ⟨ws1 ++ natRepr n ++ ws2⟩ = Except.ok (natStr n ++ ("d")) := by
  have hsd : ∀ c ∈ ws1 ++ natRepr n ++ ws2, pyIsSpace c = true ∨ isDigit c = true := by
    intro c hc
    rcases List.mem_append.mp hc with hc | hc
    · rcases List.mem_append.mp hc with hc | hc
      · exact Or.inl (h1 c hc)
      · exact Or.inr (natRepr_digits n c hc)
    · exact Or.inl (h2 c hc)
  have hnp : pyLower ⟨ws1 ++ natRepr n ++ ws2⟩ ∉ predefined_periods :=
    pyLower_spaces_digits_not_predefined _ hsd
  have hstrip : stripList (String.mk (ws1 ++ natRepr n ++ ws2)).data = natRepr n :=
    stripList_surrounded ws1 (natRepr n) ws2 h1 h2 (natRepr_not_space n) (natRepr_ne_nil n)
  have hint : pyInt ⟨ws1 ++ natRepr n ++ ws2⟩ = some (Int.ofNat n) :=
    pyInt_of_strip_natRepr _ n hstrip
  rw [validate_period, if_neg hnp]
  simp only [hint]
  rw [if_neg (by simp only [Int.ofNat_eq_natCast]; omega : ¬ (Int.ofNat n) < 1),
    if_neg (by simp only [Int.ofNat_eq_natCast]; omega : ¬ (Int.ofNat n) > 3650)]
  rw [fmtInt, if_neg (by simp only [Int.ofNat_eq_natCast]; omega : ¬ (Int.ofNat n) < 0)]
  simp

/-- C10 witness: the padded numeral string produces the day-count tag. -/
theorem C10_witness : validate_period (" 30 ") = Except.ok ("30d") := by
  have h := C10_whitespace_number [' '] [' '] 30 (by decide) (by decide) (by decide) (by decide)
  have e1 : (String.mk ([' '] ++ natRepr 30 ++ [' '])) = (" 30 ") := by decide
  have e2 : natStr 30 ++ ("d") = ("30d") := by decide
  rw [← e1, ← e2]
  exact h

/-- C3: for a nonempty price series the summary satisfies the invariants of
the specification: first and last close, absolute change as their difference,
percent change as change / firstClose * 100, max of the highs, min of the
lows, and the arithmetic mean of the volumes. -/
theorem C3_summary_stats (history : List PriceRecord) (h : history ≠ []) :
    (computeSummary history).first_price = (history.head h).Close ∧
    (computeSummary history).last_price = (history.getLast h).Close ∧
    (computeSummary history).change =
      (computeSummary history).last_price - (computeSummary history).first_price ∧
    (computeSummary history).change_percent =
      (computeSummary history).change / (computeSummary history).first_price * 100 ∧
    (computeSummary history).max_price ∈ history.map (fun r => r.High) ∧
    (∀ x ∈ history.map (fun r => r.High), x ≤ (computeSummary history).max_price) ∧
    (computeSummary history).min_price ∈ history.map (fun r => r.Low) ∧
    (∀ x ∈ history.map (fun r => r.Low), (computeSummary history).min_price ≤ x) ∧
    (computeSummary history).avg_volume =
      (history.map (fun r => r.Volume)).sum / ((history.map (fun r => r.Volume)).length : ℚ) := by
  have hmapH : history.map (fun r => r.High) ≠ [] := by
    simp [List.map_eq_nil_iff, h]
  have hmapL : history.map (fun r => r.Low) ≠ [] := by
    simp [List.map_eq_nil_iff, h]
  refine ⟨?_, ?_, rfl, rfl, ?_, ?_, ?_, ?_, rfl⟩
  · exact headD_map_close history h
  · exact getLastD_map_close history h
  · exact listMax_mem _ hmapH
  · exact fun x hx => le_listMax _ x hx
  · exact listMin_mem _ hmapL
  · exact fun x hx => listMin_le _ x hx

/-- C3 witness: on the synthetic five-record series with closes
100, 102, 98, 105, 110 the summary yields firstClose 100, lastClose 110,
absoluteChange 10 and percentChange 10. -/
theorem C3_witness :
    (computeSummary exHistory).first_price = 100 ∧
    (computeSummary exHistory).last_price = 110 ∧
    (computeSummary exHistory).change = 10 ∧
    (computeSummary exHistory).change_percent = 10 ∧
    (computeSummary exHistory).avg_volume = 1200 := by
  have h := C3_summary_stats exHistory (by decide)
  have hf : (computeSummary exHistory).first_price = 100 := h.1.trans rfl
  have hl : (computeSummary exHistory).last_price = 110 := h.2.1.trans rfl
  have hc : (computeSummary exHistory).change = 10 := by
    rw [h.2.2.1, hf, hl]
    norm_num
  have hp : (computeSummary exHistory).change_percent = 10 := by
    rw [h.2.2.2.1, hc, hf]
    norm_num
  have hv : (computeSummary exHistory).avg_volume = 1200 := by
    rw [h.2.2.2.2.2.2.2.2]
    simp [exHistory]
    norm_num
  exact ⟨hf, hl, hc, hp, hv⟩

/-- C4: the claim states that when the metadata fetch fails the rendered
header shows the ticker in place of the company name.  It is false: on a
metadata failure the company header line is not printed at all (only a
warning appears), as this concrete run shows — the warning is present and
the ticker-as-company-name line is absent. -/
theorem C4_counterexample :
    Out.line (("📈 ") ++ ("AAPL") ++ (" (") ++ ("AAPL") ++ (")")) ∉
      (main (.error ()) (.ok exHistory) ("AAPL") ("1mo") ("2024-06-01 12:00")).1 ∧
    Out.line (("⚠️  Advertencia: No se pudo obtener información de la empresa para ") ++ ("AAPL")) ∈
      (main (.error ()) (.ok exHistory) ("AAPL") ("1mo") ("2024-06-01 12:00")).1 := by
  decide

/-- C4 (amended): when the metadata fetch fails the program emits a warning
line instead of the company-name header line, proceeds to fetch the price
history, and the failure is never propagated: apart from that one swapped
line, the output and the exit status are exactly those of a run whose
metadata fetch succeeded. -/
theorem C4_metadata_failure (histRes : Except String (List PriceRecord)) (i : TickerInfo)
    (tr pr now ticker period : String)
    (ht : validate_ticker tr = Except.ok ticker) (hp : validate_period pr = Except.ok period) :
    ∃ rest : List Out,
      (main (.error ()) histRes tr pr now).1 =
        [Out.line (("=== Precios históricos de ") ++ ticker ++ (" - ") ++ now ++ (" ===")),
         Out.line (("Período consultado: ") ++ period),
         Out.line (("⚠️  Advertencia: No se pudo obtener información de la empresa para ") ++ ticker),
         Out.line ("Obteniendo datos históricos...")] ++ rest ∧
      (main (.ok i) histRes tr pr now).1 =
        [Out.line (("=== Precios históricos de ") ++ ticker ++ (" - ") ++ now ++ (" ===")),
         Out.line (("Período consultado: ") ++ period),
         Out.line (("📈 ") ++ company_name i ticker ++ (" (") ++ ticker ++ (")")),
         Out.line ("Obteniendo datos históricos...")] ++ rest ∧
      (main (.error ()) histRes tr pr now).2 = (main (.ok i) histRes tr pr now).2 := by
  rcases histRes with e | hist
  · refine ⟨[Out.line (("❌ Error al obtener datos: ") ++ e),
            Out.line ("Posibles soluciones:"),
            Out.line ("- Verifica tu conexión a internet"),
            Out.line ("- Confirma que el ticker sea correcto"),
            Out.line ("- Intenta con un período menor"),
            Out.line ("- Espera unos minutos antes de intentar nuevamente")], ?_, ?_, ?_⟩ <;>
      simp only [main, ht, hp] <;> rfl
  · by_cases hh : hist = []
    · refine ⟨[Out.line (("❌ No se encontraron datos para ") ++ ticker ++ (" en el período ") ++ period),
              Out.line ("Posibles causas:"),
              Out.line ("- Ticker incorrecto o no existe"),
              Out.line ("- Período muy amplio para este ticker"),
              Out.line ("- Problemas de conexión")], ?_, ?_, ?_⟩ <;>
        simp only [main, ht, hp, if_pos hh] <;> rfl
    · refine ⟨[Out.line (("📊 Datos obtenidos: ") ++ natStr hist.length ++ (" registros")),
              Out.line (("Período: ") ++ (hist.headD default).Date ++ (" a ") ++ (hist.getLastD default).Date),
              Out.line ("💰 Resumen del período:"),
              Out.summary (computeSummary hist),
              Out.line (("📈 Historial de precios (") ++ period ++ ("):"))] ++
             (if hist.length > 20 then
                [Out.line ("(Mostrando las últimas 20 sesiones)"),
                 Out.table (hist.drop (hist.length - 20))]
              else [Out.table hist]), ?_, ?_, ?_⟩ <;>
        simp only [main, ht, hp, if_neg hh] <;> rfl

/-- C4 witness: the amended statement instantiated on a concrete run. -/
theorem C4_witness :
    ∃ rest : List Out,
      (main (.error ()) (.ok exHistory) ("AAPL") ("1mo") ("T")).1 =
        [Out.line (("=== Precios históricos de ") ++ ("AAPL") ++ (" - ") ++ ("T") ++ (" ===")),
         Out.line (("Período consultado: ") ++ ("1mo")),
         Out.line (("⚠️  Advertencia: No se pudo obtener información de la empresa para ") ++ ("AAPL")),
         Out.line ("Obteniendo datos históricos...")] ++ rest ∧
      (main (.ok (TickerInfo.mk none none)) (.ok exHistory) ("AAPL") ("1mo") ("T")).1 =
        [Out.line (("=== Precios históricos de ") ++ ("AAPL") ++ (" - ") ++ ("T") ++ (" ===")),
         Out.line (("Período consultado: ") ++ ("1mo")),
         Out.line (("📈 ") ++ company_name (TickerInfo.mk none none) ("AAPL") ++ (" (") ++ ("AAPL") ++ (")")),
         Out.line ("Obteniendo datos históricos...")] ++ rest ∧
      (main (.error ()) (.ok exHistory) ("AAPL") ("1mo") ("T")).2 =
        (main (.ok (TickerInfo.mk none none)) (.ok exHistory) ("AAPL") ("1mo") ("T")).2 :=
  C4_metadata_failure (.ok exHistory) (TickerInfo.mk none none) ("AAPL") ("1mo") ("T")
    ("AAPL") ("1mo") (by decide) (by decide)

/-- C5: when the history fetch succeeds with zero records the run terminates
with exit status 0, prints the no-data message and its likely-cause hints,
and renders neither the summary block nor the table. -/
theorem C5_empty_history (infoRes : Except Unit TickerInfo) (tr pr now ticker period : String)
    (ht : validate_ticker tr = Except.ok ticker) (hp : validate_period pr = Except.ok period) :
    (main infoRes (.ok []) tr pr now).2 = 0 ∧
    Out.line (("❌ No se encontraron datos para ") ++ ticker ++ (" en el período ") ++ period) ∈
      (main infoRes (.ok []) tr pr now).1 ∧
    Out.line ("Posibles causas:") ∈ (main infoRes (.ok []) tr pr now).1 ∧
    Out.line ("- Ticker incorrecto o no existe") ∈ (main infoRes (.ok []) tr pr now).1 ∧
    Out.line ("- Período muy amplio para este ticker") ∈ (main infoRes (.ok []) tr pr now).1 ∧
    Out.line ("- Problemas de conexión") ∈ (main infoRes (.ok []) tr pr now).1 ∧
    (∀ rows, Out.table rows ∉ (main infoRes (.ok []) tr pr now).1) ∧
    (∀ stats, Out.summary stats ∉ (main infoRes (.ok []) tr pr now).1) := by
  rcases infoRes with u | i <;>
    simp [main, ht, hp, List.mem_cons]

/-- C5 witness: a concrete empty-history run. -/
theorem C5_witness :
    (main (.ok (TickerInfo.mk none none)) (.ok []) ("AAPL") ("1mo") ("T")).2 = 0 ∧
    Out.line (("❌ No se encontraron datos para ") ++ ("AAPL") ++ (" en el período ") ++ ("1mo")) ∈
      (main (.ok (TickerInfo.mk none none)) (.ok []) ("AAPL") ("1mo") ("T")).1 ∧
    (∀ rows, Out.table rows ∉ (main (.ok (TickerInfo.mk none none)) (.ok []) ("AAPL") ("1mo") ("T")).1) := by
  have h := C5_empty_history (.ok (TickerInfo.mk none none)) ("AAPL") ("1mo") ("T")
    ("AAPL") ("1mo") (by decide) (by decide)
  exact ⟨h.1, h.2.1, h.2.2.2.2.2.2.1⟩

/-- C6: when the history fetch fails with a `DataSourceError` the run aborts
with exit status 1 and prints the error line followed by the four
remediation hints; the straight-line model performs no retry. -/
theorem C6_history_failure (infoRes : Except Unit TickerInfo) (e : String)
    (tr pr now ticker period : String)
    (ht : validate_ticker tr = Except.ok ticker) (hp : validate_period pr = Except.ok period) :
    (main infoRes (.error e) tr pr now).2 = 1 ∧
    Out.line (("❌ Error al obtener datos: ") ++ e) ∈ (main infoRes (.error e) tr pr now).1 ∧
    Out.line ("Posibles soluciones:") ∈ (main infoRes (.error e) tr pr now).1 ∧
    Out.line ("- Verifica tu conexión a internet") ∈ (main infoRes (.error e) tr pr now).1 ∧
    Out.line ("- Confirma que el ticker sea correcto") ∈ (main infoRes (.error e) tr pr now).1 ∧
    Out.line ("- Intenta con un período menor") ∈ (main infoRes (.error e) tr pr now).1 ∧
    Out.line ("- Espera unos minutos antes de intentar nuevamente") ∈
      (main infoRes (.error e) tr pr now).1 := by
  rcases infoRes with u | i <;>
    simp [main, ht, hp, List.mem_cons]

/-- C6 witness: a concrete failing history fetch. -/
theorem C6_witness :
    (main (.error ()) (.error ("HTTPError")) ("AAPL") ("1mo") ("T")).2 = 1 ∧
    Out.line (("❌ Error al obtener datos: ") ++ ("HTTPError")) ∈
      (main (.error ()) (.error ("HTTPError")) ("AAPL") ("1mo") ("T")).1 ∧
    Out.line ("- Verifica tu conexión a internet") ∈
      (main (.error ()) (.error ("HTTPError")) ("AAPL") ("1mo") ("T")).1 := by
  have h := C6_history_failure (.error ()) ("HTTPError") ("AAPL") ("1mo") ("T")
    ("AAPL") ("1mo") (by decide) (by decide)
  exact ⟨h.1, h.2.1, h.2.2.2.1⟩

/-- C7: with more than 20 records the rendered table holds exactly the last
20 records and the truncation notice is printed; with 20 or fewer records the
table holds all records and no truncation notice appears. -/
theorem C7_truncation (infoRes : Except Unit TickerInfo) (history : List PriceRecord)
    (tr pr now ticker period : String)
    (ht : validate_ticker tr = Except.ok ticker) (hp : validate_period pr = Except.ok period)
    (hne : history ≠ []) :
    (history.length > 20 →
      Out.table (history.drop (history.length - 20)) ∈ (main infoRes (.ok history) tr pr now).1 ∧
      (history.drop (history.length - 20)).length = 20 ∧
      Out.line ("(Mostrando las últimas 20 sesiones)") ∈ (main infoRes (.ok history) tr pr now).1 ∧
      (∀ rows, Out.table rows ∈ (main infoRes (.ok history) tr pr now).1 →
        rows = history.drop (history.length - 20))) ∧
    (history.length ≤ 20 →
      Out.table history ∈ (main infoRes (.ok history) tr pr now).1 ∧
      Out.line ("(Mostrando las últimas 20 sesiones)") ∉ (main infoRes (.ok history) tr pr now).1 ∧
      (∀ rows, Out.table rows ∈ (main infoRes (.ok history) tr pr now).1 → rows = history)) := by
  have hn1 : ("(Mostrando las últimas 20 sesiones)") ≠
      (("=== Precios históricos de ") ++ ticker ++ (" - ") ++ now ++ (" ===")) :=
    ne_of_head _ _ ('(') ('=') rfl
      (data_head_append _ _ _ (data_head_append _ _ _ (data_head_append _ _ _
        (data_head_append _ _ _ rfl)))) (by decide)
  have hn2 : ("(Mostrando las últimas 20 sesiones)") ≠ (("Período consultado: ") ++ period) :=
    ne_of_head _ _ ('(') ('P') rfl (data_head_append _ _ _ rfl) (by decide)
  have hn3 : ∀ cn : String, ("(Mostrando las últimas 20 sesiones)") ≠
      (("📈 ") ++ cn ++ (" (") ++ ticker ++ (")")) := fun cn =>
    ne_of_head _ _ ('(') ('📈') rfl
      (data_head_append _ _ _ (data_head_append _ _ _ (data_head_append _ _ _
        (data_head_append _ _ _ rfl)))) (by decide)
  have hn4 : ("(Mostrando las últimas 20 sesiones)") ≠
      (("⚠️  Advertencia: No se pudo obtener información de la empresa para ") ++ ticker) :=
    ne_of_head _ _ ('(') ('⚠') rfl (data_head_append _ _ _ rfl) (by decide)
  have hn5 : ("(Mostrando las últimas 20 sesiones)") ≠
      (("📊 Datos obtenidos: ") ++ natStr history.length ++ (" registros")) :=
    ne_of_head _ _ ('(') ('📊') rfl
      (data_head_append _ _ _ (data_head_append _ _ _ rfl)) (by decide)
  have hn6 : ("(Mostrando las últimas 20 sesiones)") ≠
      (("Período: ") ++ (history.head?.getD default).Date ++ (" a ") ++ (history.getLast?.getD default).Date) :=
    ne_of_head _ _ ('(') ('P') rfl
      (data_head_append _ _ _ (data_head_append _ _ _ (data_head_append _ _ _ rfl))) (by decide)
  have hn7 : ("(Mostrando las últimas 20 sesiones)") ≠
      (("📈 Historial de precios (") ++ period ++ ("):")) :=
    ne_of_head _ _ ('(') ('📈') rfl
      (data_head_append _ _ _ (data_head_append _ _ _ rfl)) (by decide)
  constructor
  · intro h20
    have hlen : (history.drop (history.length - 20)).length = 20 := by
      rw [List.length_drop]
      omega
    refine ⟨?_, hlen, ?_, ?_⟩ <;>
      rcases infoRes with u | i
    · simp [main, ht, hp, hne, if_pos h20, List.mem_cons]
    · simp [main, ht, hp, hne, if_pos h20, List.mem_cons]
    · simp [main, ht, hp, hne, if_pos h20, List.mem_cons]
    · simp [main, ht, hp, hne, if_pos h20, List.mem_cons]
    · intro rows hmem
      simp [main, ht, hp, hne, if_pos h20, List.mem_cons] at hmem
      exact hmem
    · intro rows hmem
      simp [main, ht, hp, hne, if_pos h20, List.mem_cons] at hmem
      exact hmem
  · intro h20
    have h20f : ¬ history.length > 20 := by omega
    refine ⟨?_, ?_, ?_⟩ <;>
      rcases infoRes with u | i
    · simp [main, ht, hp, hne, if_neg h20f, List.mem_cons]
    · simp [main, ht, hp, hne, if_neg h20f, List.mem_cons]
    · simp [main, ht, hp, hne, if_neg h20f, List.mem_cons, hn1, hn2, hn4, hn5, hn6, hn7]
    · simp [main, ht, hp, hne, if_neg h20f, List.mem_cons, hn1, hn2, hn3, hn5, hn6, hn7]
    · intro rows hmem
      simp [main, ht, hp, hne, if_neg h20f, List.mem_cons] at hmem
      exact hmem
    · intro rows hmem
      simp [main, ht, hp, hne, if_neg h20f, List.mem_cons] at hmem
      exact hmem

/-- C7 witness: a 25-record series renders the last 20 with the notice; the
5-record series renders all records without the notice. -/
theorem C7_witness :
    Out.table (exHistory25.drop (exHistory25.length - 20)) ∈
      (main (.error ()) (.ok exHistory25) ("AAPL") ("max") ("T")).1 ∧
    (exHistory25.drop (exHistory25.length - 20)).length = 20 ∧
    Out.line ("(Mostrando las últimas 20 sesiones)") ∈
      (main (.error ()) (.ok exHistory25) ("AAPL") ("max") ("T")).1 ∧
    Out.table exHistory ∈ (main (.error ()) (.ok exHistory) ("AAPL") ("max") ("T")).1 ∧
    Out.line ("(Mostrando las últimas 20 sesiones)") ∉
      (main (.error ()) (.ok exHistory) ("AAPL") ("max") ("T")).1 := by
  have h25 := (C7_truncation (.error ()) exHistory25 ("AAPL") ("max") ("T") ("AAPL") ("max")
    (by decide) (by decide) (by decide)).1 (by decide)
  have h5 := (C7_truncation (.error ()) exHistory ("AAPL") ("max") ("T") ("AAPL") ("max")
    (by decide) (by decide) (by decide)).2 (by decide)
  exact ⟨h25.1, h25.2.1, h25.2.2.1, h5.1, h5.2.1⟩

end Prices
